import Mathlib

/-!
Shallow embedding of the Loopback device of src/route.rs.

Modelling conventions:
* a byte is a `Nat` (no arithmetic is ever performed on byte values);
* `Vec<u8>` is `List Nat`;
* a method taking `&mut self` is a function from the device state to a
  result paired with the new device state;
* a transform `FnOnce(&mut [u8]) -> Result<R>` is a function from the
  buffer contents it is handed to the pair (returned value, buffer
  contents after the call); the returned value's type is kept generic,
  so a `Result` (success or error) passes through unchanged.
-/

/-- Medium kind of a device, as used by `capabilities` in src/route.rs. -/
inductive Medium where
  | Ethernet : Medium
  | Ip : Medium
deriving DecidableEq

/-- Device capability descriptor, restricted to the fields the code sets
and the spec names: `max_transmission_unit` and `medium`. -/
structure DeviceCapabilities where
  max_transmission_unit : Nat
  medium : Medium
deriving DecidableEq

/-- The Loopback device of src/route.rs: a single `Vec<u8>` field. -/
structure Loopback where
  buffer : List Nat
deriving DecidableEq

/-- `Loopback::new()`: an empty buffer. -/
def Loopback.new : Loopback := { buffer := [] }

/-- `Loopback::capabilities`: starts from the default descriptor and then
overwrites both fields, so the result is MTU 1500 and medium `Ip`;
`&self` is taken immutably, the device is returned unchanged by fiat of
the Rust borrow (modelled here by not returning a device at all). -/
def Loopback.capabilities (_d : Loopback) : DeviceCapabilities :=
  { max_transmission_unit := 1500, medium := Medium.Ip }

/-- RX token of src/route.rs: owns a `Vec<u8>`. -/
structure LoopbackRxToken where
  buffer : List Nat
deriving DecidableEq

/-- TX token of src/route.rs: owns a `Vec<u8>`. -/
structure LoopbackTxToken where
  buffer : List Nat
deriving DecidableEq

/-- `Loopback::receive`: if the buffer is empty, `None` (device
unchanged); otherwise the RX token gets `self.buffer.clone()` and the TX
token gets `self.buffer.split_off(0)`, which moves the whole content out
and leaves the device's own vector empty. -/
def Loopback.receive (d : Loopback) :
    (Option (LoopbackRxToken × LoopbackTxToken)) × Loopback :=
  if d.buffer.isEmpty then
    (none, d)
  else
    (some ({ buffer := d.buffer }, { buffer := d.buffer }), { buffer := [] })

/-- `Loopback::transmit`: unconditionally `Some`, with a token holding a
fresh `Vec::new()`; the device state is untouched. -/
def Loopback.transmit (d : Loopback) : (Option LoopbackTxToken) × Loopback :=
  (some { buffer := [] }, d)

/-- `LoopbackRxToken::consume`: runs `f` on `self.buffer.clone()` and
returns `f`'s result; the mutated clone is discarded together with the
consumed token. -/
def LoopbackRxToken.consume {α : Type} (tok : LoopbackRxToken)
    (f : List Nat → α × List Nat) : α :=
  (f tok.buffer).1

/-- The buffer `vec![0; len]` that `LoopbackTxToken::consume` builds and
hands to its transform. -/
def txBufferInit (len : Nat) : List Nat := List.replicate len 0

/-- `LoopbackTxToken::consume`: builds `vec![0; len]`, runs `f` over it,
extends the token's own vector with the written bytes, and returns `f`'s
result. The token's final state is returned too, so that where the
written bytes end up can be stated; in Rust the token (moved by value)
is dropped right after, carrying those bytes with it. -/
def LoopbackTxToken.consume {α : Type} (tok : LoopbackTxToken) (len : Nat)
    (f : List Nat → α × List Nat) : α × LoopbackTxToken :=
  let buffer := txBufferInit len
  let result := f buffer
  (result.1, { buffer := tok.buffer ++ result.2 })

/-- The TX usage pattern of the Device trait: obtain a token from
`transmit()` and consume it with length `len` and transform `f`; the
token is dropped afterwards and the device is what `transmit` left. The
`getD` default is never taken, since `transmit` always returns `Some`. -/
def transmitConsume {α : Type} (d : Loopback) (len : Nat)
    (f : List Nat → α × List Nat) : α × Loopback :=
  let tok := (d.transmit).1.getD { buffer := [] }
  ((tok.consume len f).1, (d.transmit).2)

/-- The loopback round trip: write `data` through a TX token obtained
from `transmit()` (length `data.length`, transform fills the buffer with
`data`), then poll `receive()` and, if a frame is pending, consume the
RX token with a transform that reports the bytes it was shown. -/
def loopbackEcho (d : Loopback) (data : List Nat) : Option (List Nat) :=
  let d1 := (transmitConsume d data.length (fun _buf => ((), data))).2
  match (d1.receive).1 with
  | none => none
  | some (rx, _tx) => some (rx.consume (fun b => (b, b)))

/-- One poll step observed from three sides: `receive()`, then consume
the RX token with transform `f`, then read the TX token's buffer (the
device's queued content moved out by `split_off(0)`) and the device
state — the two reads that a mutation by `f` must not disturb. -/
def receiveConsumeThenRead {α : Type} (d : Loopback)
    (f : List Nat → α × List Nat) : Option (α × List Nat × Loopback) :=
  match d.receive with
  | (none, _) => none
  | (some (rx, tx), d1) => some (rx.consume f, tx.buffer, d1)

/-- Claim C1 (code bug, evaluated at the failing input): writing the one
byte 42 through a transmit token and then polling the device yields no
pending frame at all — the bytes went into the token's own detached
vector, which is dropped — whereas the claim requires the round trip to
present exactly `[42]`. -/
theorem C1_echo_round_trip_fails_eval :
    loopbackEcho Loopback.new [42] = none := by
  rfl

/-- Claim C2 (code bug, evaluated at the failing input): consuming the
token returned by `transmit()` with a transform that writes `[42]`
leaves the device state completely unchanged (buffer still empty); the
written bytes never become a pending frame. -/
theorem C2_tx_write_never_reaches_device :
    (transmitConsume Loopback.new 1 (fun _b => ((), [42]))).2 = Loopback.new := by
  rfl

/-- Claim C3: `receive()` returns `Some` exactly when the device buffer
is non-empty, and `None` (the "nothing ready" signal, not an error) when
it is empty. -/
theorem C3_receive_some_iff_pending (d : Loopback) :
    ((d.receive).1).isSome = !d.buffer.isEmpty := by
  cases hb : d.buffer.isEmpty <;> simp [Loopback.receive, hb]

/-- Claim C4: the RX token's transform `f` operates on a private copy of
the pending frame: whatever `f` does to the buffer it is handed, the
result is `f` applied to the frame content, while the later independent
read (the TX token's moved-out copy) still sees exactly the original
frame and the device state is the drained slot — none of them depend on
`f`'s mutation. -/
theorem C4_rx_transform_private_copy {α : Type} (d : Loopback)
    (f : List Nat → α × List Nat) (h : d.buffer ≠ []) :
    receiveConsumeThenRead d f =
      some ((f d.buffer).1, d.buffer, { buffer := [] }) := by
  have hb : d.buffer.isEmpty = false := by
    cases hd : d.buffer with
    | nil => exact absurd hd h
    | cons a l => simp [hd]
  simp [receiveConsumeThenRead, Loopback.receive, hb, LoopbackRxToken.consume]

/-- Witness for C4 at the frame `[5]` and a transform that erases the
buffer it is handed: the erased working copy is discarded, the TX-side
read still sees `[5]`, the device slot is empty. -/
theorem C4_rx_transform_private_copy_witness :
    (Loopback.mk [5]).buffer ≠ [] ∧
      receiveConsumeThenRead (Loopback.mk [5]) (fun b => (b.length, [])) =
        some (1, [5], Loopback.mk []) :=
  ⟨by decide, C4_rx_transform_private_copy (Loopback.mk [5]) _ (by decide)⟩

/-- Claim C5: `transmit()` always offers a token, and a consume with a
requested length above the MTU of 1500 produces no pending frame longer
than the MTU: the consume leaves the device's pending slot exactly as it
was (there is no MTU check in the code; the oversize write simply never
reaches the device), so a within-MTU slot stays within the MTU. -/
theorem C5_transmit_some_and_mtu_bound {α : Type} (d : Loopback)
    (len : Nat) (f : List Nat → α × List Nat)
    (hd : d.buffer.length ≤ 1500) (_hlen : 1500 < len) :
    ((d.transmit).1).isSome = true ∧
      ((transmitConsume d len f).2).buffer.length ≤ 1500 := by
  exact ⟨rfl, hd⟩

/-- Witness for C5 at the fresh device and an oversize request of 1501
bytes. -/
theorem C5_transmit_some_and_mtu_bound_witness :
    (Loopback.new.buffer.length ≤ 1500 ∧ 1500 < 1501) ∧
      ((Loopback.new.transmit).1).isSome = true ∧
        ((transmitConsume Loopback.new 1501
            (fun b => (0, b))).2).buffer.length ≤ 1500 :=
  ⟨⟨by decide, by decide⟩,
    C5_transmit_some_and_mtu_bound Loopback.new 1501 (fun b => (0, b))
      (by decide) (by decide)⟩

/-- Claim C6: `capabilities()` is a static descriptor: it yields the
same value on every device state, with MTU 1500 and medium `Ip`, and (a
pure function of no field) it cannot modify the device. -/
theorem C6_capabilities_static (d e : Loopback) :
    d.capabilities = e.capabilities ∧
      d.capabilities.max_transmission_unit = 1500 ∧
      d.capabilities.medium = Medium.Ip :=
  ⟨rfl, rfl, rfl⟩

/-- Claim C7: the device is a single-slot queue and nothing drops a
pending frame silently: the whole transmit-and-consume path leaves the
device state unchanged, and `receive()` either delivers nothing and
leaves the device as it was, or delivers exactly the pending frame
through both tokens while emptying the slot — removal happens only by
delivery. -/
theorem C7_single_slot_no_silent_drop {α : Type} (d : Loopback) (len : Nat)
    (f : List Nat → α × List Nat) :
    (transmitConsume d len f).2 = d ∧
      (((d.receive).1 = none ∧ (d.receive).2 = d) ∨
        ((d.receive).1 = some ({ buffer := d.buffer }, { buffer := d.buffer }) ∧
          (d.receive).2 = { buffer := [] })) := by
  refine ⟨rfl, ?_⟩
  cases hb : d.buffer.isEmpty
  · exact Or.inr (by simp [Loopback.receive, hb])
  · exact Or.inl (by simp [Loopback.receive, hb])

/-- Claim C8: `LoopbackTxToken::consume` hands its transform a buffer of
exactly `len` bytes, all zero, and returns exactly the transform's
result (whatever it is — success or error — unchanged). -/
theorem C8_tx_consume_zeroed_buffer_exact_result {α : Type}
    (tok : LoopbackTxToken) (len : Nat) (f : List Nat → α × List Nat) :
    (tok.consume len f).1 = (f (txBufferInit len)).1 ∧
      (txBufferInit len).length = len ∧
      (txBufferInit len).all (fun b => b == 0) = true := by
  refine ⟨rfl, List.length_replicate len 0, ?_⟩
  simp [txBufferInit, List.all_eq_true, List.mem_replicate]

/-- Claim C9: a successful `receive()` drains the slot at once: the
device it leaves behind has an empty buffer, so a second `receive()`
before any new TX write returns `None`, even though the first RX token
is still unconsumed. -/
theorem C9_receive_drains_slot (d : Loopback) (rx : LoopbackRxToken)
    (tx : LoopbackTxToken) (h : (d.receive).1 = some (rx, tx)) :
    ((d.receive).2).buffer = [] ∧ (((d.receive).2).receive).1 = none := by
  cases hb : d.buffer.isEmpty <;> simp [Loopback.receive, hb] at h ⊢

/-- Witness for C9 at the frame `[7]`. -/
theorem C9_receive_drains_slot_witness :
    ((Loopback.mk [7]).receive).1 =
        some (LoopbackRxToken.mk [7], LoopbackTxToken.mk [7]) ∧
      (((Loopback.mk [7]).receive).2).buffer = [] ∧
        ((((Loopback.mk [7]).receive).2).receive).1 = none :=
  ⟨by decide,
    C9_receive_drains_slot (Loopback.mk [7]) (LoopbackRxToken.mk [7])
      (LoopbackTxToken.mk [7]) (by decide)⟩

/-- Claim C10: the RX token is a snapshot: its consume returns its
transform applied to the frame content captured at `receive()` time
(the token holds no reference to the device, so later device mutation
cannot reach it), and any token holding equal content consumes
identically. -/
theorem C10_rx_snapshot {α : Type} (d : Loopback)
    (rx rx2 : LoopbackRxToken) (tx : LoopbackTxToken)
    (f : List Nat → α × List Nat)
    (h : (d.receive).1 = some (rx, tx)) (h2 : rx2.buffer = rx.buffer) :
    rx.consume f = (f d.buffer).1 ∧ rx2.consume f = rx.consume f := by
  cases hb : d.buffer.isEmpty <;> simp [Loopback.receive, hb] at h
  obtain ⟨hrx, _⟩ := h
  constructor
  · simp [LoopbackRxToken.consume, ← hrx]
  · simp [LoopbackRxToken.consume, h2]

/-- Witness for C10 at the frame `[3, 4]` and the transform that reports
the bytes it is shown. -/
theorem C10_rx_snapshot_witness :
    ((Loopback.mk [3, 4]).receive).1 =
        some (LoopbackRxToken.mk [3, 4], LoopbackTxToken.mk [3, 4]) ∧
      (LoopbackRxToken.mk [3, 4]).buffer = (LoopbackRxToken.mk [3, 4]).buffer ∧
      ((LoopbackRxToken.mk [3, 4]).consume (fun b => (b, ([] : List Nat))) =
          [3, 4] ∧
        (LoopbackRxToken.mk [3, 4]).consume (fun b => (b, ([] : List Nat))) =
          (LoopbackRxToken.mk [3, 4]).consume (fun b => (b, ([] : List Nat)))) :=
  ⟨by decide, rfl,
    C10_rx_snapshot (Loopback.mk [3, 4]) (LoopbackRxToken.mk [3, 4])
      (LoopbackRxToken.mk [3, 4]) (LoopbackTxToken.mk [3, 4])
      (fun b => (b, ([] : List Nat))) (by decide) rfl⟩
